import Mathlib

/-!
# Verification of the PandasSchema core: `Schema` and `ValidationWarning`

Shallow embedding of `pandas_schema/schema.py` and
`pandas_schema/validation_warning.py`.  Cell values are modelled as strings;
the external `Column` collaborator's validators are arbitrary Lean functions,
so the concrete cell type plays no role in the schema logic being verified.
-/

namespace PandasSchema

/-- Model of `ValidationWarning` (validation_warning.py).  `value` stores the string
form of the offending Python value (only its rendering is observable here) or
`none` for Python `None`; `row` has Python type `int` with default sentinel
`-1`; `column` defaults to `None`. -/
structure ValidationWarning where
  message : String
  value : Option String := none
  row : Int := -1
  column : Option String := none
deriving DecidableEq

/-- Model of `ValidationWarning.__str__`.  The source tests
`self.row is not None and self.column is not None and self.value is not None`;
since `row` has type `int` (default `-1`, never `None`), the first conjunct is
always true and is modelled as such.  The literal braces of the source
f-string are written `\x7b`/`\x7d`. -/
def vwStr (w : ValidationWarning) : String :=
  if w.column.isSome && w.value.isSome then
    "\x7brow: " ++ toString w.row ++ ", column: \"" ++ w.column.getD "" ++
      "\"\x7d: \"" ++ w.value.getD "" ++ "\" " ++ w.message
  else
    w.message

/-- The external `Column` collaborator (column.py, not part of this core): a
`name` and a `validate(series) -> List[ValidationWarning]` capability, kept
abstract as an arbitrary function. -/
structure Column where
  name : String
  validate : List String → List ValidationWarning

/-- A pandas `DataFrame`, reduced to what `Schema.validate` observes: the
named column series, in stable column order (`df.columns`, `df.iteritems()`). -/
structure DataFrame where
  cols : List (String × List String)

/-- The names of `df.columns`, backing the membership test `name in df`. -/
def DataFrame.names (df : DataFrame) : List String := df.cols.map Prod.fst

/-- Lookup `df[name]`: the series carrying `name` (first match; the source's
name-based lookup assumes names are unique). -/
def DataFrame.get (df : DataFrame) (name : String) : List String :=
  ((df.cols.find? (fun p => p.fst == name)).map Prod.snd).getD []

/-- The exceptions of errors.py.  `PanSchInvalidSchemaError` carries its
message; `PanSchArgumentError` carries the set difference that its f-string
interpolates, as a list of names in first-occurrence order (a Python `set`
renders in unspecified order). -/
inductive PanSchError where
  | invalidSchema (msg : String)
  | argument (badColumns : List String)
deriving DecidableEq

/-- Model of `Schema`: the fields stored by `Schema.__init__` after its checks pass. -/
structure Schema where
  columns : List Column
  ordered : Bool

/-- Model of `Schema.get_column_names`. -/
def Schema.get_column_names (s : Schema) : List String := s.columns.map Column.name

/-- The Python values the `columns` argument of `Schema.__init__` may take:
`None`, a `list` of columns, a non-list sequence (e.g. a `tuple`) of columns,
or some other truthy object (e.g. a generator). -/
inductive PyColumns where
  | pyNone
  | pyList (cols : List Column)
  | pyTuple (cols : List Column)
  | pyOtherTruthy

/-- Python truthiness of the `columns` argument, as tested by
`if not columns`: `None` and empty sequences are falsy. -/
def PyColumns.truthy : PyColumns → Bool
  | .pyNone => false
  | .pyList cols => !cols.isEmpty
  | .pyTuple cols => !cols.isEmpty
  | .pyOtherTruthy => true

/-- The check `isinstance(columns, List)`. -/
def PyColumns.isList : PyColumns → Bool
  | .pyList _ => true
  | _ => false

/-- The `ordered` argument of `Schema.__init__`: a `bool` or any other
Python value. -/
inductive PyOrdered where
  | pyBool (b : Bool)
  | pyNonBool

/-- Model of `Schema.__init__` (schema.py): the truthiness check, the
`isinstance(columns, List)` check, the `isinstance(ordered, bool)` check, in
source order, then the fields are stored. -/
def schemaInit (columns : PyColumns) (ordered : PyOrdered) : Except PanSchError Schema :=
  if !columns.truthy then
    .error (.invalidSchema "An instance of the schema class must have a columns list")
  else
    match columns, ordered with
    | .pyList cols, .pyBool b => .ok { columns := cols, ordered := b }
    | .pyList _, .pyNonBool =>
      .error (.invalidSchema "The ordered field must be a boolean")
    | _, _ =>
      .error (.invalidSchema "The columns field must be a list of Column objects")

/-- The schema-level warning for a column-count mismatch (schema.py).  Only
`message` is passed, so `value = none`, `row = -1`, `column = none`. -/
def countMismatchWarning (schema_cols df_cols : Nat) : ValidationWarning :=
  { message := s!"Invalid number of columns. The schema specifies {schema_cols}, but the data frame has {df_cols}" }

/-- The warning for a schema column absent from the data frame (schema.py):
`message` and `column` are passed, so `value = none` and `row = -1`. -/
def missingColumnWarning (name : String) : ValidationWarning :=
  { message := s!"The column {name} exists in the schema but not in the data frame"
    column := some name }

/-- Python `==` between a `str` and a `Column` object: `Column` defines no
custom `__eq__`, so the comparison is always `False`. -/
def pyStrEqColumn (_ : String) (_ : Column) : Bool := false

/-- The expression `set(columns).difference(self.columns)` from `Schema.validate`: the set of
subset *names* minus the list of `Column` *objects*.  A name is removed only
if it compares equal to one of the `Column` objects, which never happens, so
every (deduplicated) subset name survives. -/
def setDiffNamesColumns (names : List String) (cols : List Column) : List String :=
  names.eraseDups.filter (fun n => !cols.any (fun c => pyStrEqColumn n c))

/-- The `for column in columns_to_pair` loop of the unordered branch of
`Schema.validate`: pair each schema column with the same-named data-frame
series, stopping at the first column whose name is not in the data frame,
which produces the early-returned warning. -/
def buildPairsByName (df : DataFrame) : List Column → Except ValidationWarning (List (List String × Column))
  | [] => .ok []
  | col :: rest =>
    if df.names.contains col.name then
      (buildPairsByName df rest).map (fun ps => (df.get col.name, col) :: ps)
    else
      .error (missingColumnWarning col.name)

/-- The final loop of `Schema.validate`: `errors += column.validate(series)`
over the pairs, in order. -/
def runCells (pairs : List (List String × Column)) : List ValidationWarning :=
  (pairs.map (fun p => p.snd.validate p.fst)).flatten

/-- The sort-key relation of `sorted(errors, key=lambda e: e.row)`. -/
def rowLe (a b : ValidationWarning) : Prop := a.row ≤ b.row

instance : DecidableRel rowLe := fun a b => inferInstanceAs (Decidable (a.row ≤ b.row))

instance : IsTotal ValidationWarning rowLe := ⟨fun a b => Int.le_total a.row b.row⟩

instance : IsTrans ValidationWarning rowLe := ⟨fun _ _ _ h h2 => le_trans h h2⟩

/-- Python's `sorted` with key `e.row`: a stable sort by row, modelled by
insertion sort (extensionally equal to any stable sort on the same key). -/
def sortByRow (l : List ValidationWarning) : List ValidationWarning :=
  List.insertionSort rowLe l

/-- The pairing-and-validation tail of `Schema.validate`, entered once
`columns_to_pair` has been determined: the `if self.ordered` pairing, the
cell-validation loop and the final sort.  Note that the ordered branch zips
the data-frame series with `self.columns`, not with `columns_to_pair`,
exactly as the source does. -/
def Schema.validatePairing (s : Schema) (df : DataFrame) (columns_to_pair : List Column) :
    Except PanSchError (List ValidationWarning) :=
  if s.ordered then
    .ok (sortByRow (runCells ((df.cols.map Prod.snd).zip s.columns)))
  else
    match buildPairsByName df columns_to_pair with
    | .error w => .ok [w]
    | .ok pairs => .ok (sortByRow (runCells pairs))

/-- Model of `Schema.validate` (schema.py).  `columns` is the optional subset of column
names (the source's type hint says `List[Column]`, but every use treats the
entries as names).  A raised `PanSchArgumentError` is the `.error` case; a
normal return of a warning list is `.ok`. -/
def Schema.validate (s : Schema) (df : DataFrame) (columns : Option (List String)) :
    Except PanSchError (List ValidationWarning) :=
  match columns with
  | none =>
    if df.cols.length ≠ s.columns.length then
      .ok [countMismatchWarning s.columns.length df.cols.length]
    else
      s.validatePairing df s.columns
  | some subset =>
    if subset.all (fun n => s.get_column_names.contains n) then
      s.validatePairing df (s.columns.filter (fun c => subset.contains c.name))
    else
      .error (.argument (setDiffNamesColumns subset s.columns))

/-- The `columns_to_pair` list that a `Schema.validate` call reaches the
pairing step with, when it does; `none` when the call aborts beforehand
(count mismatch, or a subset that is not part of the schema). -/
def workingColumns (s : Schema) (df : DataFrame) (columns : Option (List String)) :
    Option (List Column) :=
  match columns with
  | none => if df.cols.length ≠ s.columns.length then none else some s.columns
  | some subset =>
    if subset.all (fun n => s.get_column_names.contains n) then
      some (s.columns.filter (fun c => subset.contains c.name))
    else
      none

/-- The (series, column) pairs whose cell-level validation a `Schema.validate`
call runs, when it reaches that step. -/
def cellPairs (s : Schema) (df : DataFrame) (columns : Option (List String)) :
    Option (List (List String × Column)) :=
  (workingColumns s df columns).bind (fun wl =>
    if s.ordered then
      some ((df.cols.map Prod.snd).zip s.columns)
    else
      (buildPairsByName df wl).toOption)

/-- Explicit-state form of one `validate` call: the source method assigns
neither to `self.columns`/`self.ordered` nor to `df`, so the state-passing
embedding returns both unchanged alongside the result. -/
def Schema.validateRun (s : Schema) (df : DataFrame) (columns : Option (List String)) :
    Except PanSchError (List ValidationWarning) × Schema × DataFrame :=
  (s.validate df columns, s, df)

/-- The schema state after a sequence of `validate` calls, each threaded
through `validateRun`. -/
def Schema.afterCalls (s : Schema) : List (DataFrame × Option (List String)) → Schema
  | [] => s
  | c :: rest => Schema.afterCalls ((s.validateRun c.fst c.snd).snd.fst) rest

/-- A concrete `Column` whose validator ignores the series and returns a fixed
warning list; used to instantiate the theorems on concrete inputs. -/
def constColumn (name : String) (ws : List ValidationWarning) : Column :=
  ⟨name, fun _ => ws⟩

/-- A concrete warning with a given message and row, other fields default. -/
def mkRowWarning (msg : String) (r : Int) : ValidationWarning :=
  { message := msg, row := r }

/-! ## Concrete instances used to exercise the theorems -/

/-- A 2-column schema, `ordered = False`. -/
def exSchemaAB : Schema := ⟨[constColumn "a" [], constColumn "b" []], false⟩

/-- A 3-column data frame. -/
def exDf3 : DataFrame := ⟨[("p", []), ("q", []), ("r", [])]⟩

/-- Schema whose column `"a"` would produce a cell warning and whose column
`"b"` is meant to be missing from the data frame. -/
def exSchemaMissing : Schema :=
  ⟨[constColumn "a" [mkRowWarning "a cell bad" 0], constColumn "b" []], false⟩

/-- Data frame with columns `"a"` and `"z"` (so `"b"` is absent). -/
def exDfAZ : DataFrame := ⟨[("a", ["v"]), ("z", [])]⟩

/-- A column whose validator emits warnings with rows `[5, 1, 3]`. -/
def exColRows513 : Column :=
  constColumn "c1" [mkRowWarning "m5" 5, mkRowWarning "m1a" 1, mkRowWarning "m3" 3]

/-- A column whose validator emits warnings with rows `[1, 2]`. -/
def exColRows12 : Column :=
  constColumn "c2" [mkRowWarning "m1b" 1, mkRowWarning "m2" 2]

/-- The two-column schema of the sort-stability example. -/
def exSchemaSort : Schema := ⟨[exColRows513, exColRows12], false⟩

/-- The matching data frame for `exSchemaSort`. -/
def exDfSort : DataFrame := ⟨[("c1", []), ("c2", [])]⟩

/-- An ordered schema with columns named `"x"` and `"y"`. -/
def exSchemaXY : Schema :=
  ⟨[constColumn "x" [mkRowWarning "from x" 0], constColumn "y" [mkRowWarning "from y" 1]], true⟩

/-- A data frame with columns named `"p"` and `"q"`. -/
def exDfPQ : DataFrame := ⟨[("p", ["1"]), ("q", ["2"])]⟩

/-- An ordered schema whose second column `"b"` emits a warning: used to show
that a subset of `["a"]` does not stop `"b"` from being validated. -/
def c5schema : Schema :=
  ⟨[constColumn "a" [], constColumn "b" [mkRowWarning "b bad" 0]], true⟩

/-- Unordered 3-column schema for the amended subset claim; `"b"` would fail. -/
def c5uSchema : Schema :=
  ⟨[constColumn "a" [mkRowWarning "a warn" 0], constColumn "b" [mkRowWarning "b bad" 1],
    constColumn "c" [mkRowWarning "c warn" 2]], false⟩

/-- A 4-column data frame (extra column `"z"`), showing that the subset path
performs no column-count check. -/
def c5uDf : DataFrame := ⟨[("a", []), ("b", []), ("c", []), ("z", [])]⟩

/-- Schema with columns `"a"` and `"b"` for the bad-subset error. -/
def c6schema : Schema := ⟨[constColumn "a" [], constColumn "b" []], false⟩

/-- Data frame matching `c6schema`. -/
def c6df : DataFrame := ⟨[("a", []), ("b", [])]⟩

/-- A 1-column ordered schema, to be zipped against a 2-column data frame. -/
def c10schema : Schema := ⟨[constColumn "a" [mkRowWarning "w" 0]], true⟩

/-! ## Helper lemmas -/

lemma validate_none_mismatch (s : Schema) (df : DataFrame)
    (h : df.cols.length ≠ s.columns.length) :
    s.validate df none = .ok [countMismatchWarning s.columns.length df.cols.length] := by
  show (if df.cols.length ≠ s.columns.length then
      Except.ok [countMismatchWarning s.columns.length df.cols.length]
    else s.validatePairing df s.columns) =
      .ok [countMismatchWarning s.columns.length df.cols.length]
  rw [if_pos h]

lemma validate_none_pairing (s : Schema) (df : DataFrame)
    (h : df.cols.length = s.columns.length) :
    s.validate df none = s.validatePairing df s.columns := by
  show (if df.cols.length ≠ s.columns.length then
      Except.ok [countMismatchWarning s.columns.length df.cols.length]
    else s.validatePairing df s.columns) = s.validatePairing df s.columns
  rw [if_neg (fun hc => hc h)]

lemma validate_some_valid (s : Schema) (df : DataFrame) (subset : List String)
    (h : subset.all (fun n => s.get_column_names.contains n) = true) :
    s.validate df (some subset) =
      s.validatePairing df (s.columns.filter (fun c => subset.contains c.name)) := by
  show (if subset.all (fun n => s.get_column_names.contains n) then
      s.validatePairing df (s.columns.filter (fun c => subset.contains c.name))
    else .error (.argument (setDiffNamesColumns subset s.columns))) =
      s.validatePairing df (s.columns.filter (fun c => subset.contains c.name))
  rw [if_pos h]

lemma buildPairsByName_error (df : DataFrame) :
    ∀ (wl : List Column) (c : Column),
      wl.find? (fun col => !(df.names.contains col.name)) = some c →
      buildPairsByName df wl = .error (missingColumnWarning c.name) := by
  intro wl
  induction wl with
  | nil => intro c h; simp [List.find?] at h
  | cons col rest ih =>
    intro c h
    by_cases hm : df.names.contains col.name
    · rw [List.find?] at h
      simp only [hm, Bool.not_true] at h
      rw [buildPairsByName, if_pos hm, ih c h]
      rfl
    · have hm2 : (df.names.contains col.name) = false := by
        simpa using hm
      rw [List.find?] at h
      simp only [hm2, Bool.not_false, Option.some.injEq] at h
      subst h
      rw [buildPairsByName, if_neg hm]

lemma buildPairsByName_ok (df : DataFrame) :
    ∀ wl : List Column, (∀ c ∈ wl, df.names.contains c.name = true) →
      buildPairsByName df wl = .ok (wl.map (fun c => (df.get c.name, c))) := by
  intro wl
  induction wl with
  | nil => intro _; rfl
  | cons col rest ih =>
    intro h
    have h1 := h col (List.mem_cons_self _ _)
    rw [buildPairsByName, if_pos h1, ih (fun c hc => h c (List.mem_cons_of_mem _ hc))]
    rfl

lemma filter_row_orderedInsert (r0 : Int) (w : ValidationWarning) :
    ∀ l : List ValidationWarning,
      (List.orderedInsert rowLe w l).filter (fun x => x.row == r0) =
        if w.row == r0
        then w :: l.filter (fun x => x.row == r0)
        else l.filter (fun x => x.row == r0) := by
  intro l
  induction l with
  | nil =>
    by_cases hw : w.row == r0 <;> simp [List.orderedInsert, List.filter, hw]
  | cons b l ih =>
    by_cases hle : rowLe w b
    · by_cases hw : (w.row == r0) <;>
        simp [List.orderedInsert, if_pos hle, List.filter_cons, hw]
    · have hlt : b.row < w.row := by
        have : ¬ (w.row ≤ b.row) := hle
        omega
      by_cases hw : w.row == r0
      · have hwr : w.row = r0 := by simpa using hw
        have hb : (b.row == r0) = false := by
          have : b.row ≠ r0 := by omega
          simpa using this
        simp [List.orderedInsert, if_neg hle, List.filter_cons, hb, hw, ih]
      · simp [List.orderedInsert, if_neg hle, List.filter_cons, hw, ih]

lemma filter_row_sortByRow (r0 : Int) :
    ∀ l : List ValidationWarning,
      (sortByRow l).filter (fun x => x.row == r0) = l.filter (fun x => x.row == r0) := by
  intro l
  induction l with
  | nil => rfl
  | cons a l ih =>
    rw [sortByRow, List.insertionSort, filter_row_orderedInsert]
    rw [sortByRow] at ih
    by_cases ha : a.row == r0 <;> simp [ha, List.filter_cons, ih]

lemma sortByRow_sorted (l : List ValidationWarning) : List.Sorted rowLe (sortByRow l) :=
  List.sorted_insertionSort rowLe l

lemma sortByRow_perm (l : List ValidationWarning) : List.Perm (sortByRow l) l :=
  List.perm_insertionSort rowLe l

lemma sortByRow_row_mono (l : List ValidationWarning) {i j : Nat}
    (hij : i ≤ j) (hj : j < (sortByRow l).length) :
    ((sortByRow l).get ⟨i, lt_of_le_of_lt hij hj⟩).row ≤
      ((sortByRow l).get ⟨j, hj⟩).row := by
  rcases eq_or_lt_of_le hij with h | h
  · subst h; exact le_refl _
  · have hs : List.Pairwise rowLe (sortByRow l) := sortByRow_sorted l
    exact List.pairwise_iff_get.mp hs ⟨i, lt_of_le_of_lt hij hj⟩ ⟨j, hj⟩ h

lemma validatePairing_of_branch (s : Schema) (df : DataFrame) (wl : List Column)
    (pairs : List (List String × Column))
    (hp : (if s.ordered then some ((df.cols.map Prod.snd).zip s.columns)
           else (buildPairsByName df wl).toOption) = some pairs) :
    s.validatePairing df wl = .ok (sortByRow (runCells pairs)) := by
  by_cases ho : s.ordered
  · rw [if_pos ho] at hp
    have hp2 : (df.cols.map Prod.snd).zip s.columns = pairs := by injection hp
    rw [Schema.validatePairing, if_pos ho, hp2]
  · rw [if_neg ho] at hp
    cases hb : buildPairsByName df wl with
    | error w => rw [hb] at hp; simp [Except.toOption] at hp
    | ok ps =>
      rw [hb] at hp
      simp only [Except.toOption, Option.some.injEq] at hp
      rw [Schema.validatePairing, if_neg ho, hb, hp]

/-! ## Claim theorems -/

/-- C1: with no subset and a column-count mismatch, `Schema.validate` returns
exactly one `ValidationWarning`; its message names both the schema's and the
data frame's column counts, and its `row` and `column` keep the unset defaults
(`-1` and `none`).  The result mentions no column validator and the theorem
holds for every schema, so no per-column validation is performed. -/
theorem c1_count_mismatch (s : Schema) (df : DataFrame)
    (h : df.cols.length ≠ s.columns.length) :
    s.validate df none = .ok [countMismatchWarning s.columns.length df.cols.length] ∧
    (countMismatchWarning s.columns.length df.cols.length).row = -1 ∧
    (countMismatchWarning s.columns.length df.cols.length).column = none ∧
    (countMismatchWarning s.columns.length df.cols.length).message =
      "Invalid number of columns. The schema specifies " ++ toString s.columns.length ++
        ", but the data frame has " ++ toString df.cols.length :=
  ⟨validate_none_mismatch s df h, rfl, rfl, by simp [countMismatchWarning, toString]⟩

/-- Witness for C1 at the spec's example: a 2-column schema, a 3-column data
frame, one warning whose message mentions both counts. -/
theorem c1_witness :
    exDf3.cols.length ≠ exSchemaAB.columns.length ∧
    (exSchemaAB.validate exDf3 none = .ok [countMismatchWarning 2 3] ∧
      (countMismatchWarning 2 3).row = -1 ∧
      (countMismatchWarning 2 3).column = none ∧
      (countMismatchWarning 2 3).message =
        "Invalid number of columns. The schema specifies " ++ toString 2 ++
          ", but the data frame has " ++ toString 3) :=
  ⟨by decide, c1_count_mismatch exSchemaAB exDf3 (by decide)⟩

/-- C2: when `ordered` is false and the pairing step is reached with working
list `wl` (`columns_to_pair`), the first column of `wl` whose name is absent
from the data frame aborts the call: the result is exactly one warning
carrying that column's name with `row` unset, and no cell-level warnings from
any column appear (the result mentions no validator, and the theorem holds for
every schema, including ones whose earlier columns would fail cell checks). -/
theorem c2_missing_column (s : Schema) (df : DataFrame)
    (sub : Option (List String)) (wl : List Column) (c : Column)
    (h0 : s.ordered = false)
    (hwl : workingColumns s df sub = some wl)
    (hc : wl.find? (fun col => !(df.names.contains col.name)) = some c) :
    s.validate df sub = .ok [missingColumnWarning c.name] ∧
    (missingColumnWarning c.name).column = some c.name ∧
    (missingColumnWarning c.name).row = -1 := by
  refine ⟨?_, rfl, rfl⟩
  have hpair : ∀ ctp : List Column,
      buildPairsByName df ctp = .error (missingColumnWarning c.name) →
      s.validatePairing df ctp = .ok [missingColumnWarning c.name] := by
    intro ctp hb
    rw [Schema.validatePairing, if_neg (by rw [h0]; exact Bool.false_ne_true), hb]
  cases sub with
  | none =>
    simp only [workingColumns] at hwl
    by_cases hlen : df.cols.length ≠ s.columns.length
    · rw [if_pos hlen] at hwl
      exact absurd hwl (by simp)
    · rw [if_neg hlen] at hwl
      have hwl2 : s.columns = wl := by
        injection hwl
      rw [validate_none_pairing s df (not_not.mp hlen), hwl2]
      exact hpair wl (buildPairsByName_error df wl c hc)
  | some subset =>
    simp only [workingColumns] at hwl
    by_cases hs : subset.all (fun n => s.get_column_names.contains n)
    · rw [if_pos hs] at hwl
      have hwl2 : s.columns.filter (fun col => subset.contains col.name) = wl := by
        injection hwl
      rw [validate_some_valid s df subset hs, hwl2]
      exact hpair wl (buildPairsByName_error df wl c hc)
    · rw [if_neg hs] at hwl
      exact absurd hwl (by simp)

/-- Witness for C2: schema `{a, b}` (whose column `a` would emit a cell
warning), data frame with columns `{a, z}` of matching count, so `b` is the
first missing column; the single returned warning names `b` and the warning
about `a`'s cells is absent. -/
theorem c2_witness :
    exSchemaMissing.ordered = false ∧
    workingColumns exSchemaMissing exDfAZ none = some exSchemaMissing.columns ∧
    exSchemaMissing.columns.find? (fun col => !(exDfAZ.names.contains col.name)) =
      some (constColumn "b" []) ∧
    (exSchemaMissing.validate exDfAZ none = .ok [missingColumnWarning "b"] ∧
      (missingColumnWarning "b").column = some "b" ∧
      (missingColumnWarning "b").row = -1) :=
  ⟨rfl, rfl, rfl,
    c2_missing_column exSchemaMissing exDfAZ none exSchemaMissing.columns
      (constColumn "b" []) rfl rfl rfl⟩

/-- C3: whenever a `validate` call reaches cell-level validation with pairs
`pairs`, the returned list is the concatenation `runCells pairs` of the paired
validators' warnings (in pair order, each validator's emission order kept),
sorted stably by `row` ascending: the output is `Sorted rowLe`, is a
permutation of the concatenation, filtering by any fixed row value leaves the
emission order unchanged (stability), and rows are monotone in position, so a
warning with the `-1` sentinel never appears after one with a genuine
(`≥ 0`) row index. -/
theorem c3_sorted_stable (s : Schema) (df : DataFrame) (sub : Option (List String))
    (pairs : List (List String × Column))
    (hp : cellPairs s df sub = some pairs) :
    s.validate df sub = .ok (sortByRow (runCells pairs)) ∧
    List.Sorted rowLe (sortByRow (runCells pairs)) ∧
    (∀ r0 : Int, (sortByRow (runCells pairs)).filter (fun x => x.row == r0) =
      (runCells pairs).filter (fun x => x.row == r0)) ∧
    List.Perm (sortByRow (runCells pairs)) (runCells pairs) ∧
    (∀ (i j : Nat) (hij : i ≤ j) (hj : j < (sortByRow (runCells pairs)).length),
      ((sortByRow (runCells pairs)).get ⟨i, lt_of_le_of_lt hij hj⟩).row ≤
        ((sortByRow (runCells pairs)).get ⟨j, hj⟩).row) := by
  refine ⟨?_, sortByRow_sorted _, fun r0 => filter_row_sortByRow r0 _, sortByRow_perm _,
    fun i j hij hj => sortByRow_row_mono _ hij hj⟩
  cases sub with
  | none =>
    simp only [cellPairs, workingColumns] at hp
    by_cases hlen : df.cols.length ≠ s.columns.length
    · rw [if_pos hlen] at hp
      simp at hp
    · rw [if_neg hlen] at hp
      rw [Option.some_bind] at hp
      rw [validate_none_pairing s df (not_not.mp hlen)]
      exact validatePairing_of_branch s df s.columns pairs hp
  | some subset =>
    simp only [cellPairs, workingColumns] at hp
    by_cases hs : subset.all (fun n => s.get_column_names.contains n)
    · rw [if_pos hs] at hp
      rw [Option.some_bind] at hp
      rw [validate_some_valid s df subset hs]
      exact validatePairing_of_branch s df _ pairs hp
    · rw [if_neg hs] at hp
      simp at hp

/-- Witness for C3 at the spec's example: validators emitting rows `[5, 1, 3]`
and `[1, 2]`; the merged result is ordered `1, 1, 2, 3, 5` and the two
`row = 1` warnings keep their emission order (`m1a` from the first column
before `m1b` from the second). -/
theorem c3_witness :
    cellPairs exSchemaSort exDfSort none =
      some [(([] : List String), exColRows513), ([], exColRows12)] ∧
    exSchemaSort.validate exDfSort none =
      .ok (sortByRow (runCells [(([] : List String), exColRows513), ([], exColRows12)])) ∧
    sortByRow (runCells [(([] : List String), exColRows513), ([], exColRows12)]) =
      [mkRowWarning "m1a" 1, mkRowWarning "m1b" 1, mkRowWarning "m2" 2,
        mkRowWarning "m3" 3, mkRowWarning "m5" 5] :=
  ⟨rfl,
    (c3_sorted_stable exSchemaSort exDfSort none
      [(([] : List String), exColRows513), ([], exColRows12)] rfl).1,
    by decide⟩

/-- C4: for an ordered schema and a table of matching column count (no
subset), `validate` zips the table's series, in table iteration order, with
the schema's columns, invoking the i-th schema column's validator on the i-th
table series; the result is invariant under renaming the table's columns
(names are ignored on both sides). -/
theorem c4_ordered_positional (s : Schema) (df : DataFrame)
    (h0 : s.ordered = true) (hlen : df.cols.length = s.columns.length) :
    s.validate df none =
      .ok (sortByRow (runCells ((df.cols.map Prod.snd).zip s.columns))) ∧
    (∀ df2 : DataFrame, df2.cols.map Prod.snd = df.cols.map Prod.snd →
      s.validate df2 none = s.validate df none) := by
  have key : ∀ d : DataFrame, d.cols.length = s.columns.length →
      s.validate d none = .ok (sortByRow (runCells ((d.cols.map Prod.snd).zip s.columns))) := by
    intro d hd
    rw [validate_none_pairing s d hd, Schema.validatePairing, if_pos h0]
  refine ⟨key df hlen, ?_⟩
  intro df2 h2
  have l2 : df2.cols.length = df.cols.length := by
    have hl := congrArg List.length h2
    simpa [List.length_map] using hl
  rw [key df2 (l2.trans hlen), key df hlen, h2]

/-- Witness for C4 at the spec's example: schema columns `{x, y}` with
`ordered = True`, table columns named `p, q`; table column `p` is paired with
schema column `x` and `q` with `y`, and renaming the table's columns (even to
`x`/`other`) does not change the result. -/
theorem c4_witness :
    exSchemaXY.ordered = true ∧
    exDfPQ.cols.length = exSchemaXY.columns.length ∧
    exSchemaXY.validate exDfPQ none =
      .ok (sortByRow (runCells ((exDfPQ.cols.map Prod.snd).zip exSchemaXY.columns))) ∧
    exSchemaXY.validate (DataFrame.mk [("x", ["1"]), ("other", ["2"])]) none =
      exSchemaXY.validate exDfPQ none ∧
    exSchemaXY.validate exDfPQ none =
      .ok [mkRowWarning "from x" 0, mkRowWarning "from y" 1] :=
  ⟨rfl, rfl, (c4_ordered_positional exSchemaXY exDfPQ rfl rfl).1,
    (c4_ordered_positional exSchemaXY exDfPQ rfl rfl).2
      (DataFrame.mk [("x", ["1"]), ("other", ["2"])]) rfl,
    rfl⟩

/-- C5 counterexample: with `ordered = True`, schema columns `{a, b}` (where
`b`'s validator emits a warning) and the valid subset `["a"]`, `validate`
still invokes `b`'s validator: the result is exactly `b`'s warning, although
the claim demands that only column `a` be validated regardless of `ordered`.
The ordered branch pairs against the full `self.columns`, not
`columns_to_pair`. -/
theorem c5_counterexample :
    c5schema.validate exDfPQ (some ["a"]) = .ok [mkRowWarning "b bad" 0] ∧
    c5schema.validate exDfPQ (some ["a"]) ≠ .ok [] :=
  ⟨rfl, by
    show (Except.ok [mkRowWarning "b bad" 0] : Except PanSchError (List ValidationWarning)) ≠
      .ok []
    simp⟩

/-- C5 (amended): for a valid subset and `ordered = False`, exactly the schema
columns named in the subset are validated, in schema declaration order, and no
column-count check against the table is performed (no length hypothesis
appears); the `ordered = True` case is excluded, since there the subset only
passes the membership check and pairing uses the full schema column list (see
the counterexample and C10). -/
theorem c5_subset_unordered (s : Schema) (df : DataFrame) (sub : List String)
    (h0 : s.ordered = false)
    (hsub : sub.all (fun n => s.get_column_names.contains n) = true)
    (hall : ∀ c ∈ s.columns.filter (fun c => sub.contains c.name),
      df.names.contains c.name = true) :
    s.validate df (some sub) =
      .ok (sortByRow (runCells ((s.columns.filter (fun c => sub.contains c.name)).map
        (fun c => (df.get c.name, c))))) := by
  rw [validate_some_valid s df sub hsub, Schema.validatePairing,
    if_neg (by rw [h0]; exact Bool.false_ne_true),
    buildPairsByName_ok df _ hall]

/-- Witness for C5 (amended) at the spec's example: schema `{a, b, c}`
(unordered; `b` would fail), subset `["a", "c"]`, a 4-column table: only `a`
and `c` are validated, in schema order, `b`'s warning is absent, and the
column-count difference (4 vs 3) raises nothing. -/
theorem c5_witness :
    c5uSchema.ordered = false ∧
    (["a", "c"].all (fun n => c5uSchema.get_column_names.contains n)) = true ∧
    (c5uSchema.columns.filter (fun c => ["a", "c"].contains c.name)).map Column.name =
      ["a", "c"] ∧
    c5uSchema.validate c5uDf (some ["a", "c"]) =
      .ok (sortByRow (runCells ((c5uSchema.columns.filter
        (fun c => ["a", "c"].contains c.name)).map (fun c => (c5uDf.get c.name, c))))) ∧
    c5uSchema.validate c5uDf (some ["a", "c"]) =
      .ok [mkRowWarning "a warn" 0, mkRowWarning "c warn" 2] :=
  ⟨rfl, rfl, rfl,
    c5_subset_unordered c5uSchema c5uDf ["a", "c"] rfl rfl (by decide), rfl⟩

/-- C6 (code bug): subset `["a", "z"]` against schema columns `{a, b}` does
raise the argument error with no warning list, but the error names every
subset column — including `"a"`, which is part of the schema — because the
source computes `set(columns).difference(self.columns)` against the `Column`
objects instead of the column names; the claim (and the guard two lines
above, which correctly compares against `get_column_names`) requires exactly
`["z"]`. -/
theorem c6_code_behavior :
    c6schema.validate c6df (some ["a", "z"]) = .error (.argument ["a", "z"]) ∧
    "a" ∈ c6schema.get_column_names ∧
    setDiffNamesColumns ["a", "z"] c6schema.columns ≠
      ["a", "z"].filter (fun n => !(c6schema.get_column_names.contains n)) :=
  ⟨rfl, by decide, by decide⟩

/-- C7 counterexample: a warning whose `row` is the unset sentinel `-1` but
whose `value` and `column` are present is rendered in the FULL form (the
source only tests the fields against `None`, and `row = -1` is not `None`),
whereas the claim demands the bare message whenever `row` is the sentinel. -/
theorem c7_counterexample :
    (ValidationWarning.mk "bad value" (some "7") (-1) (some "x")).row = -1 ∧
    vwStr (ValidationWarning.mk "bad value" (some "7") (-1) (some "x")) =
      "\x7brow: -1, column: \"x\"\x7d: \"7\" bad value" ∧
    vwStr (ValidationWarning.mk "bad value" (some "7") (-1) (some "x")) ≠ "bad value" :=
  ⟨rfl, rfl, by decide⟩

/-- C7 (amended): the rendering is the full
`\x7brow: <row>, column: "<column>"\x7d: "<value>" <message>` form exactly
when `column` and `value` are both present; `row`, an integer defaulting to
the sentinel `-1`, always counts as present, so the sentinel row still
renders in the full form; in every other case the rendering is the bare
message. -/
theorem c7_render_amended :
    (∀ (w : ValidationWarning) (c v : String),
        w.column = some c → w.value = some v →
        vwStr w = "\x7brow: " ++ toString w.row ++ ", column: \"" ++ c ++
          "\"\x7d: \"" ++ v ++ "\" " ++ w.message) ∧
    (∀ w : ValidationWarning, w.column = none ∨ w.value = none →
      vwStr w = w.message) := by
  constructor
  · intro w c v hc hv
    unfold vwStr
    rw [hc, hv]
    rfl
  · intro w h
    rcases h with h | h <;> simp [vwStr, h]

/-- Witness for C7 (amended) at the spec's examples:
`ValidationWarning("bad value", value=7, row=2, column="x")` renders in full
form, `ValidationWarning("schema mismatch")` renders as the bare message. -/
theorem c7_witness :
    vwStr (ValidationWarning.mk "bad value" (some "7") 2 (some "x")) =
      "\x7brow: 2, column: \"x\"\x7d: \"7\" bad value" ∧
    vwStr (ValidationWarning.mk "schema mismatch" none (-1) none) = "schema mismatch" :=
  ⟨c7_render_amended.1 (ValidationWarning.mk "bad value" (some "7") 2 (some "x"))
      "x" "7" rfl rfl,
    c7_render_amended.2 (ValidationWarning.mk "schema mismatch" none (-1) none)
      (Or.inl rfl)⟩

/-- C8: `Schema.__init__` raises the invalid-schema error exactly when the
columns argument is empty or absent, when it is not a `list` (the source's
`isinstance(columns, List)` reading of "proper sequence type": a non-list
sequence such as a tuple is likewise rejected), or when `ordered` is not a
boolean; for every non-empty list of columns with a boolean flag,
construction succeeds eagerly with exactly those fields.  (`Schema.validate`
constructs no invalid-schema error in any branch, so these failures are
never deferred.) -/
theorem c8_construction (c : PyColumns) (o : PyOrdered) :
    ((∃ msg, schemaInit c o = .error (.invalidSchema msg)) ↔
      ¬ ∃ (cols : List Column) (b : Bool),
        c = .pyList cols ∧ cols ≠ [] ∧ o = .pyBool b) ∧
    (∀ (cols : List Column) (b : Bool), c = .pyList cols → cols ≠ [] → o = .pyBool b →
      schemaInit c o = .ok ⟨cols, b⟩) := by
  constructor
  · cases c with
    | pyNone => cases o <;> simp [schemaInit, PyColumns.truthy]
    | pyList cols =>
      cases cols with
      | nil => cases o <;> simp [schemaInit, PyColumns.truthy]
      | cons a as => cases o <;> simp [schemaInit, PyColumns.truthy]
    | pyTuple cols =>
      cases cols with
      | nil => cases o <;> simp [schemaInit, PyColumns.truthy]
      | cons a as => cases o <;> simp [schemaInit, PyColumns.truthy]
    | pyOtherTruthy => cases o <;> simp [schemaInit, PyColumns.truthy]
  · rintro cols b rfl hne rfl
    have ht : (PyColumns.pyList cols).truthy = true := by
      simp [PyColumns.truthy, hne]
    rw [schemaInit, if_neg (by rw [ht]; simp)]

/-- Witness for C8: a one-column list with a boolean flag constructs
successfully with exactly those fields. -/
theorem c8_witness :
    ([constColumn "a" []] : List Column) ≠ [] ∧
    schemaInit (.pyList [constColumn "a" []]) (.pyBool false) =
      .ok ⟨[constColumn "a" []], false⟩ :=
  ⟨by simp,
    (c8_construction (.pyList [constColumn "a" []]) (.pyBool false)).2
      [constColumn "a" []] false rfl (by simp) rfl⟩

/-- C9: `validate` mutates nothing: the explicit-state run returns the schema
and the data frame unchanged (the source assigns to neither), and after any
sequence of `validate` calls the schema — hence `get_column_names`, in schema
order — is identical. -/
theorem c9_no_mutation (s : Schema) (df : DataFrame) (sub : Option (List String))
    (calls : List (DataFrame × Option (List String))) :
    (s.validateRun df sub).snd.fst = s ∧
    (s.validateRun df sub).snd.snd = df ∧
    Schema.afterCalls s calls = s ∧
    (Schema.afterCalls s calls).get_column_names = s.get_column_names := by
  have hAfter : ∀ (cs : List (DataFrame × Option (List String))) (t : Schema),
      Schema.afterCalls t cs = t := by
    intro cs
    induction cs with
    | nil => intro t; rfl
    | cons hd rest ih => intro t; exact ih t
  exact ⟨rfl, rfl, hAfter calls s, by rw [hAfter calls s]⟩

/-- C10: with `ordered = True` and no subset the column-count check still
applies; with a valid subset the pairing zips the table's series with the
schema's FULL column list, truncating to the shorter of the two (the pair
count is the minimum of the two lengths), so excess table or schema columns
are silently skipped with no warning or error. -/
theorem c10_ordered_subset_zip (s : Schema) (df : DataFrame) (h0 : s.ordered = true) :
    (df.cols.length ≠ s.columns.length →
      s.validate df none = .ok [countMismatchWarning s.columns.length df.cols.length]) ∧
    (∀ sub : List String, sub.all (fun n => s.get_column_names.contains n) = true →
      s.validate df (some sub) =
        .ok (sortByRow (runCells ((df.cols.map Prod.snd).zip s.columns))) ∧
      ((df.cols.map Prod.snd).zip s.columns).length =
        min df.cols.length s.columns.length) := by
  constructor
  · exact validate_none_mismatch s df
  · intro sub hsub
    constructor
    · rw [validate_some_valid s df sub hsub, Schema.validatePairing, if_pos h0]
    · rw [List.length_zip, List.length_map]

/-- Witness for C10: a 1-column ordered schema against a 2-column table — with
no subset the count check fires; with subset `["a"]` the zip truncates to one
pair (`min 2 1`), the table's excess column `q` is skipped silently, and the
single schema column is validated against the first table series. -/
theorem c10_witness :
    c10schema.ordered = true ∧
    exDfPQ.cols.length ≠ c10schema.columns.length ∧
    c10schema.validate exDfPQ none = .ok [countMismatchWarning 1 2] ∧
    (["a"].all (fun n => c10schema.get_column_names.contains n)) = true ∧
    c10schema.validate exDfPQ (some ["a"]) =
      .ok (sortByRow (runCells ((exDfPQ.cols.map Prod.snd).zip c10schema.columns))) ∧
    ((exDfPQ.cols.map Prod.snd).zip c10schema.columns).length = min 2 1 ∧
    c10schema.validate exDfPQ (some ["a"]) = .ok [mkRowWarning "w" 0] := by
  refine ⟨rfl, by decide, ?_, rfl, ?_, ?_, rfl⟩
  · exact (c10_ordered_subset_zip c10schema exDfPQ rfl).1 (by decide)
  · exact ((c10_ordered_subset_zip c10schema exDfPQ rfl).2 ["a"] rfl).1
  · exact ((c10_ordered_subset_zip c10schema exDfPQ rfl).2 ["a"] rfl).2

end PandasSchema
